import Mathlib

/-!
Verification of the Wi-Fi / 5G NR-U coexistence simulator
(`coexistanceSimpy/Coexistence.py`).

The definitions below are a shallow embedding of the pure fragments of the
source that the claims are about: collision bookkeeping (`check_collision`,
`sent_failed`, `sent_completed`), binary-exponential-backoff draws
(`generate_new_back_off_time`), the sync-slot advance loop of the NR-U gap
mode (`wait_back_off_gap`), the dynamic contention-window controller, and
the end-of-run metric computations of `run_simulation`.  Python integers are
modelled by `Nat`/`Int`; Python floats that only carry exact decimal
constants and arithmetic on integer airtimes are modelled by `ℚ`; the
`random.randint(0, u)` draw is modelled by an arbitrary function
`draw : Nat → Nat` constrained by `∀ u, draw u ≤ u`.
-/

/-- Per-node bookkeeping touched by `sent_failed` / `sent_completed`.
`retrans` is `frame_to_send.number_of_retransmissions` for a Wi-Fi Station,
`transmission_to_send.number_of_retransmissions` for an NR-U Gnb;
`failed_in_row` is `failed_transmissions_in_row`. -/
structure NodeState where
  retrans : Nat
  failed : Nat
  failed_in_row : Nat
  succeeded : Nat
deriving DecidableEq, Repr

/-- `Station.sent_failed` (Coexistence.py lines 396-405): increment the
frame's retransmission count, the failure totals and the in-a-row counter;
if the retransmission count now exceeds `r_limit`, replace the frame by a
fresh one (`generate_new_frame` returns a `Frame` whose
`number_of_retransmissions` defaults to 0) and reset the in-a-row counter. -/
def Station.sent_failed (r_limit : Nat) (s : NodeState) : NodeState :=
  let s1 : NodeState :=
    { s with retrans := s.retrans + 1, failed := s.failed + 1,
             failed_in_row := s.failed_in_row + 1 }
  if s1.retrans > r_limit then
    { s1 with retrans := 0, failed_in_row := 0 }
  else
    s1

/-- `Station.sent_completed` (lines 407-421), restricted to the counters the
claims mention: increment the success total and reset the in-a-row failure
counter. -/
def Station.sent_completed (s : NodeState) : NodeState :=
  { s with succeeded := s.succeeded + 1, failed_in_row := 0 }

/-- `Gnb.sent_failed` (lines 709-717): increment the transmission's
retransmission count, the failure totals and the in-a-row counter; if the
retransmission count now exceeds the literal 7, reset the in-a-row counter
(the transmission object itself is not replaced here). -/
def Gnb.sent_failed (s : NodeState) : NodeState :=
  let s1 : NodeState :=
    { s with retrans := s.retrans + 1, failed := s.failed + 1,
             failed_in_row := s.failed_in_row + 1 }
  if s1.retrans > 7 then
    { s1 with failed_in_row := 0 }
  else
    s1

/-- `Gnb.sent_completed` (lines 719-726), restricted to the modelled
counters. -/
def Gnb.sent_completed (s : NodeState) : NodeState :=
  { s with succeeded := s.succeeded + 1, failed_in_row := 0 }

/-- Start of `Gnb.send_transmission` (line 618): every send attempt begins
with `self.transmission_to_send = self.gen_new_transmission()`, and
`gen_new_transmission` (lines 690-697) builds a `Transmission_NR` whose
`number_of_retransmissions` defaults to 0 — so the transmission used at the
next send is fresh. -/
def Gnb.send_transmission_start (s : NodeState) : NodeState :=
  { s with retrans := 0 }

/-- `Station.check_collision` (lines 373-380) as a function of the lengths
of the two transmit lists: failure (and `False`) unless exactly one node is
transmitting. -/
def Station.check_collision (tx_list tx_list_NR : Nat) (r_limit : Nat)
    (s : NodeState) : Bool × NodeState :=
  if tx_list + tx_list_NR > 1 ∨ tx_list + tx_list_NR = 0 then
    (false, Station.sent_failed r_limit s)
  else
    (true, Station.sent_completed s)

/-- `Gnb.check_collision` (lines 672-688): the source branches on the global
`gap` flag, but both branches contain the identical test and calls. -/
def Gnb.check_collision (gap : Bool) (tx_list tx_list_NR : Nat)
    (s : NodeState) : Bool × NodeState :=
  if gap then
    if tx_list + tx_list_NR > 1 ∨ tx_list + tx_list_NR = 0 then
      (false, Gnb.sent_failed s)
    else
      (true, Gnb.sent_completed s)
  else
    if tx_list + tx_list_NR > 1 ∨ tx_list + tx_list_NR = 0 then
      (false, Gnb.sent_failed s)
    else
      (true, Gnb.sent_completed s)

/-- `Station.generate_new_back_off_time` (lines 382-389).  The uniform draw
`random.randint(0, upper_limit)` is abstracted by `draw`; the function
returns the drawn slot count together with the residue `back_off * t_slot`
which the source returns. -/
def Station.generate_new_back_off_time (draw : Nat → Nat)
    (failed_transmissions_in_row cw_min cw_max t_slot : Nat) : Nat × Nat :=
  let upper_limit := 2 ^ failed_transmissions_in_row * (cw_min + 1) - 1
  let upper_limit := if upper_limit ≤ cw_max then upper_limit else cw_max
  let back_off := draw upper_limit
  (back_off, back_off * t_slot)

/-- `Gnb.generate_new_back_off_time` (lines 699-707): identical computation,
with `observation_slot_duration` as the slot unit. -/
def Gnb.generate_new_back_off_time (draw : Nat → Nat)
    (failed_transmissions_in_row cw_min cw_max observation_slot_duration :
      Nat) : Nat × Nat :=
  let upper_limit := 2 ^ failed_transmissions_in_row * (cw_min + 1) - 1
  let upper_limit := if upper_limit ≤ cw_max then upper_limit else cw_max
  let back_off := draw upper_limit
  (back_off, back_off * observation_slot_duration)

/-- C1: at end of frame, every node (Wi-Fi Station or NR-U Gnb) evaluating
`check_collision` records a failure via `sent_failed` and returns `False`
when the combined size of the two transmit lists is greater than 1 or equal
to 0, and records a success via `sent_completed` and returns `True` when the
combined size is exactly 1. -/
theorem check_collision_correct (tx_list tx_list_NR r_limit : Nat)
    (g : Bool) (s : NodeState) :
    ((tx_list + tx_list_NR > 1 ∨ tx_list + tx_list_NR = 0) →
      Station.check_collision tx_list tx_list_NR r_limit s =
        (false, Station.sent_failed r_limit s) ∧
      Gnb.check_collision g tx_list tx_list_NR s =
        (false, Gnb.sent_failed s)) ∧
    (tx_list + tx_list_NR = 1 →
      Station.check_collision tx_list tx_list_NR r_limit s =
        (true, Station.sent_completed s) ∧
      Gnb.check_collision g tx_list tx_list_NR s =
        (true, Gnb.sent_completed s)) := by
  constructor
  · intro h
    constructor
    · rw [Station.check_collision, if_pos h]
    · cases g
      · rw [Gnb.check_collision, if_neg Bool.false_ne_true, if_pos h]
      · rw [Gnb.check_collision, if_pos rfl, if_pos h]
  · intro h
    have h' : ¬(tx_list + tx_list_NR > 1 ∨ tx_list + tx_list_NR = 0) := by
      omega
    constructor
    · rw [Station.check_collision, if_neg h']
    · cases g
      · rw [Gnb.check_collision, if_neg Bool.false_ne_true, if_neg h']
      · rw [Gnb.check_collision, if_pos rfl, if_neg h']

/-- Witness for C1: two transmitters collide, a single transmitter
succeeds. -/
theorem check_collision_correct_witness :
    (Station.check_collision 2 0 7 ⟨0, 0, 0, 0⟩ =
        (false, Station.sent_failed 7 ⟨0, 0, 0, 0⟩) ∧
      Gnb.check_collision true 2 0 ⟨0, 0, 0, 0⟩ =
        (false, Gnb.sent_failed ⟨0, 0, 0, 0⟩)) ∧
    (Station.check_collision 1 0 7 ⟨0, 0, 0, 0⟩ =
        (true, Station.sent_completed ⟨0, 0, 0, 0⟩) ∧
      Gnb.check_collision true 1 0 ⟨0, 0, 0, 0⟩ =
        (true, Gnb.sent_completed ⟨0, 0, 0, 0⟩)) :=
  ⟨(check_collision_correct 2 0 7 true ⟨0, 0, 0, 0⟩).1 (by omega),
   (check_collision_correct 1 0 7 true ⟨0, 0, 0, 0⟩).2 rfl⟩

/-- C2: for every failure count `k`, current `cw_min` and `cw_max`, and any
draw bounded as `random.randint(0, u)` is, the drawn backoff slot count `b`
satisfies `0 ≤ b ≤ min (2^k * (cw_min + 1) - 1) cw_max`, and the returned
residue is `b` times the slot unit — `t_slot` for Wi-Fi Stations and
`observation_slot_duration` for NR-U Gnbs. -/
theorem generate_new_back_off_time_bounds (draw : Nat → Nat)
    (hdraw : ∀ u, draw u ≤ u) (k cw_min cw_max t_slot obs_slot : Nat) :
    (Station.generate_new_back_off_time draw k cw_min cw_max t_slot).1 ≤
        min (2 ^ k * (cw_min + 1) - 1) cw_max ∧
      (Station.generate_new_back_off_time draw k cw_min cw_max t_slot).2 =
        (Station.generate_new_back_off_time draw k cw_min cw_max t_slot).1 *
          t_slot ∧
    (Gnb.generate_new_back_off_time draw k cw_min cw_max obs_slot).1 ≤
        min (2 ^ k * (cw_min + 1) - 1) cw_max ∧
      (Gnb.generate_new_back_off_time draw k cw_min cw_max obs_slot).2 =
        (Gnb.generate_new_back_off_time draw k cw_min cw_max obs_slot).1 *
          obs_slot := by
  have key : ∀ u c : Nat, (if u ≤ c then u else c) = min u c := by
    intro u c
    split <;> omega
  simp only [Station.generate_new_back_off_time,
    Gnb.generate_new_back_off_time, key]
  exact ⟨hdraw _, trivial, hdraw _, trivial⟩

/-- Witness for C2: instantiated with the identity draw (the largest value
`randint` can return) and the default Wi-Fi/NR-U parameters after two
failures. -/
theorem generate_new_back_off_time_bounds_witness :
    (Station.generate_new_back_off_time id 2 15 63 9).1 ≤
        min (2 ^ 2 * (15 + 1) - 1) 63 ∧
      (Station.generate_new_back_off_time id 2 15 63 9).2 =
        (Station.generate_new_back_off_time id 2 15 63 9).1 * 9 ∧
    (Gnb.generate_new_back_off_time id 2 15 63 9).1 ≤
        min (2 ^ 2 * (15 + 1) - 1) 63 ∧
      (Gnb.generate_new_back_off_time id 2 15 63 9).2 =
        (Gnb.generate_new_back_off_time id 2 15 63 9).1 * 9 :=
  generate_new_back_off_time_bounds id (fun u => Nat.le_refl u) 2 15 63 9 9

/-- C3: the NR-U retransmission-drop policy coincides with Wi-Fi's at
`r_limit = 7`: `Gnb.sent_failed` leaves the consecutive-failure counter
exactly as `Station.sent_failed` with `r_limit = 7` does — reset to 0 when
the collision raises the retransmission count above 7 (and a fresh
transmission, with retransmission count 0, is used at the next send
attempt), incremented and retained when the count stays at or below 7. -/
theorem gnb_drop_policy_matches_wifi (s : NodeState) :
    (Gnb.sent_failed s).failed_in_row =
        (Station.sent_failed 7 s).failed_in_row ∧
    (Gnb.sent_failed s).failed = (Station.sent_failed 7 s).failed ∧
    (s.retrans + 1 > 7 →
      (Gnb.sent_failed s).failed_in_row = 0 ∧
      (Gnb.send_transmission_start (Gnb.sent_failed s)).retrans = 0) ∧
    (s.retrans + 1 ≤ 7 →
      (Gnb.sent_failed s).failed_in_row = s.failed_in_row + 1) := by
  by_cases h : s.retrans + 1 > 7
  all_goals
    simp [Gnb.sent_failed, Station.sent_failed, Gnb.send_transmission_start,
      h]
  all_goals omega

/-- Witness for C3: a transmission on its 8th collision (counter above the
limit) and one on its first. -/
theorem gnb_drop_policy_matches_wifi_witness :
    ((Gnb.sent_failed ⟨7, 3, 3, 0⟩).failed_in_row =
        (Station.sent_failed 7 ⟨7, 3, 3, 0⟩).failed_in_row ∧
      (Gnb.sent_failed ⟨7, 3, 3, 0⟩).failed =
        (Station.sent_failed 7 ⟨7, 3, 3, 0⟩).failed ∧
      (7 + 1 > 7 →
        (Gnb.sent_failed ⟨7, 3, 3, 0⟩).failed_in_row = 0 ∧
        (Gnb.send_transmission_start
          (Gnb.sent_failed ⟨7, 3, 3, 0⟩)).retrans = 0) ∧
      (7 + 1 ≤ 7 →
        (Gnb.sent_failed ⟨7, 3, 3, 0⟩).failed_in_row = 3 + 1)) ∧
    (0 + 1 ≤ 7 →
      (Gnb.sent_failed ⟨0, 0, 5, 0⟩).failed_in_row = 5 + 1) :=
  ⟨gnb_drop_policy_matches_wifi ⟨7, 3, 3, 0⟩,
   (gnb_drop_policy_matches_wifi ⟨0, 0, 5, 0⟩).2.2.2⟩

/-- C9: `Gnb.check_collision` does not depend on the global `gap` flag — the
gap branch and the non-gap branch are extensionally equal functions of the
channel state. -/
theorem gnb_check_collision_gap_independent (tx_list tx_list_NR : Nat)
    (s : NodeState) :
    Gnb.check_collision true tx_list tx_list_NR s =
      Gnb.check_collision false tx_list tx_list_NR s := by
  simp [Gnb.check_collision]

/-- The sync-slot advance loop of `Gnb.wait_back_off_gap` (lines 495-507):
starting from `time_to_next_sync_slot = next_sync_slot_boundry - now`, while
`back_off_time >= time_to_next_sync_slot` add
`synchronization_slot_duration`.  The loop is written with explicit fuel;
`none` means the fuel ran out before the loop condition became false. -/
def Gnb.sync_slot_advance (synchronization_slot_duration back_off_time : ℤ) :
    ℤ → Nat → Option ℤ
  | t, 0 => if back_off_time ≥ t then none else some t
  | t, fuel + 1 =>
    if back_off_time ≥ t then
      Gnb.sync_slot_advance synchronization_slot_duration back_off_time
        (t + synchronization_slot_duration) fuel
    else some t

/-- When the loop exits, the exit value is strictly above the backoff. -/
theorem Gnb.sync_slot_advance_exit (sync back_off : ℤ) :
    ∀ (fuel : Nat) (t t' : ℤ),
      Gnb.sync_slot_advance sync back_off t fuel = some t' →
      back_off < t' := by
  intro fuel
  induction fuel with
  | zero =>
    intro t t' h
    unfold Gnb.sync_slot_advance at h
    by_cases hc : back_off ≥ t
    · rw [if_pos hc] at h
      exact absurd h (by simp)
    · rw [if_neg hc] at h
      cases h
      omega
  | succ n ih =>
    intro t t' h
    unfold Gnb.sync_slot_advance at h
    by_cases hc : back_off ≥ t
    · rw [if_pos hc] at h
      exact ih _ _ h
    · rw [if_neg hc] at h
      cases h
      omega

/-- With a positive slot duration the loop terminates as soon as the fuel
covers the distance from the starting point to the backoff. -/
theorem Gnb.sync_slot_advance_terminates (sync back_off : ℤ)
    (hsync : 0 < sync) :
    ∀ (fuel : Nat) (t : ℤ), (back_off + 1 - t).toNat ≤ fuel →
      (Gnb.sync_slot_advance sync back_off t fuel).isSome := by
  intro fuel
  induction fuel with
  | zero =>
    intro t hle
    have ht : ¬ back_off ≥ t := by omega
    unfold Gnb.sync_slot_advance
    rw [if_neg ht]
    rfl
  | succ n ih =>
    intro t hle
    unfold Gnb.sync_slot_advance
    by_cases hc : back_off ≥ t
    · rw [if_pos hc]
      exact ih (t + sync) (by omega)
    · rw [if_neg hc]
      rfl

/-- C5: in NR-U gap mode, with `synchronization_slot_duration > 0` and
`back_off_time >= 0`, the sync-slot advance loop of `wait_back_off_gap`
terminates (some finite fuel suffices), and whenever it exits the resulting
`gap_time = time_to_next_sync_slot - back_off_time` is non-negative, so the
assertion `gap_time >= 0` cannot fail. -/
theorem wait_back_off_gap_time_nonneg (sync back_off t0 : ℤ)
    (hsync : 0 < sync) (hback : 0 ≤ back_off) :
    (∃ fuel, (Gnb.sync_slot_advance sync back_off t0 fuel).isSome) ∧
    ∀ (fuel : Nat) (t : ℤ),
      Gnb.sync_slot_advance sync back_off t0 fuel = some t →
      0 ≤ t - back_off := by
  constructor
  · exact ⟨(back_off + 1 - t0).toNat,
      Gnb.sync_slot_advance_terminates sync back_off hsync _ t0 le_rfl⟩
  · intro fuel t h
    have := Gnb.sync_slot_advance_exit sync back_off fuel t0 t h
    omega

/-- Witness for C5: the default 1000 us sync slot, a 57 us backoff and a
sync boundary 3 us away. -/
theorem wait_back_off_gap_time_nonneg_witness :
    (∃ fuel, (Gnb.sync_slot_advance 1000 57 3 fuel).isSome) ∧
    ∀ (fuel : Nat) (t : ℤ),
      Gnb.sync_slot_advance 1000 57 3 fuel = some t → 0 ≤ t - 57 :=
  wait_back_off_gap_time_nonneg 1000 57 3 (by norm_num) (by norm_num)

/-- The per-technology collision-probability computation of `run_simulation`
(lines 894-916), identical in structure for Wi-Fi
(`number_of_stations`, `channel.failed_transmissions`,
`channel.succeeded_transmissions`) and NR-U (`number_of_gnb`,
`channel.failed_transmissions_NR`, `channel.succeeded_transmissions_NR`). -/
def p_coll_calc (number_of_nodes failed succeeded : Nat) : ℚ :=
  if number_of_nodes ≠ 0 then
    if failed + succeeded ≠ 0 then
      (failed : ℚ) / ((failed : ℚ) + (succeeded : ℚ))
    else 0
  else 0

/-- C8: the emitted per-technology collision probability equals
`failed / (failed + succeeded)` when that denominator is non-zero and 0 when
it is zero; the hypothesis records that a technology with zero nodes has
zero counters (its counters are only ever incremented by its own nodes'
`sent_failed` / `sent_completed`), which is why the zero-node branch also
falls under the zero-denominator case and no division by zero is ever
evaluated. -/
theorem p_coll_calc_correct (number_of_nodes failed succeeded : Nat)
    (hzero : number_of_nodes = 0 → failed = 0 ∧ succeeded = 0) :
    (failed + succeeded ≠ 0 →
      p_coll_calc number_of_nodes failed succeeded =
        (failed : ℚ) / ((failed : ℚ) + (succeeded : ℚ))) ∧
    (failed + succeeded = 0 →
      p_coll_calc number_of_nodes failed succeeded = 0) := by
  constructor
  · intro hden
    have hn : number_of_nodes ≠ 0 := by
      intro h0
      exact hden (by omega)
    rw [p_coll_calc, if_pos hn, if_pos hden]
  · intro hden
    rw [p_coll_calc]
    by_cases hn : number_of_nodes ≠ 0
    · rw [if_pos hn, if_neg (by omega)]
    · rw [if_neg hn]

/-- Witness for C8: 3 failures and 7 successes over one station, and the
empty run. -/
theorem p_coll_calc_correct_witness :
    p_coll_calc 1 3 7 = (3 : ℚ) / ((3 : ℚ) + (7 : ℚ)) ∧
    p_coll_calc 0 0 0 = 0 :=
  ⟨(p_coll_calc_correct 1 3 7 (by omega)).1 (by omega),
   (p_coll_calc_correct 0 0 0 (fun _ => ⟨rfl, rfl⟩)).2 rfl⟩

/-- The `cw_min` / `cw_max` pair of a `Config` (Wi-Fi) or `Config_NR`
(NR-U), together with the copies broadcast into each `Station.cw_min` /
`Station.cw_max` (resp. `Gnb.cw_min` / `Gnb.cw_max`). -/
structure CWPair where
  cw_min : Nat
  cw_max : Nat
deriving DecidableEq, Repr

/-- The fields of `DynamicCWController` (lines 55-74) the adjustment
operations read and write.  `stations` and `gnbs` are the per-node
`cw_min` / `cw_max` pairs held by `channel.stations.values()` and
`channel.gnbs.values()`. -/
structure DynamicCWController where
  wifi_config : CWPair
  nru_config : CWPair
  adjustment_step : Nat
  target_fairness : ℚ
  min_cw : Nat
  max_cw : Nat
  stations : List CWPair
  gnbs : List CWPair
deriving DecidableEq, Repr

/-- `DynamicCWController._increase_wifi_cw` (lines 149-158):
`new_cw = min(cw_min + adjustment_step, max_cw)`, `cw_max = min(new_cw * 4,
max_cw)`, and every registered station receives the new pair. -/
def DynamicCWController.increase_wifi_cw (c : DynamicCWController) :
    DynamicCWController :=
  let new_cw := min (c.wifi_config.cw_min + c.adjustment_step) c.max_cw
  let cfg : CWPair := { cw_min := new_cw, cw_max := min (new_cw * 4) c.max_cw }
  { c with wifi_config := cfg, stations := c.stations.map (fun _ => cfg) }

/-- `DynamicCWController._decrease_wifi_cw` (lines 160-169): as above with
`new_cw = max(cw_min - adjustment_step, min_cw)`; Python's possibly negative
`cw_min - adjustment_step` followed by `max(..., min_cw)` coincides with
truncated `Nat` subtraction because `min_cw ≥ 0`. -/
def DynamicCWController.decrease_wifi_cw (c : DynamicCWController) :
    DynamicCWController :=
  let new_cw := max (c.wifi_config.cw_min - c.adjustment_step) c.min_cw
  let cfg : CWPair := { cw_min := new_cw, cw_max := min (new_cw * 4) c.max_cw }
  { c with wifi_config := cfg, stations := c.stations.map (fun _ => cfg) }

/-- `DynamicCWController._increase_nru_cw` (lines 171-180). -/
def DynamicCWController.increase_nru_cw (c : DynamicCWController) :
    DynamicCWController :=
  let new_cw := min (c.nru_config.cw_min + c.adjustment_step) c.max_cw
  let cfg : CWPair := { cw_min := new_cw, cw_max := min (new_cw * 4) c.max_cw }
  { c with nru_config := cfg, gnbs := c.gnbs.map (fun _ => cfg) }

/-- `DynamicCWController._decrease_nru_cw` (lines 182-191). -/
def DynamicCWController.decrease_nru_cw (c : DynamicCWController) :
    DynamicCWController :=
  let new_cw := max (c.nru_config.cw_min - c.adjustment_step) c.min_cw
  let cfg : CWPair := { cw_min := new_cw, cw_max := min (new_cw * 4) c.max_cw }
  { c with nru_config := cfg, gnbs := c.gnbs.map (fun _ => cfg) }

/-- `DynamicCWController._calculate_jains_fairness` (lines 106-117) for the
two per-technology airtime deltas.  The Python float arithmetic on the
(integer-valued) airtime deltas is modelled exactly over `ℚ`. -/
def calculate_jains_fairness (wifi_airtime nru_airtime : ℚ) : ℚ :=
  if wifi_airtime = 0 ∧ nru_airtime = 0 then 1
  else
    let sum_airtime := wifi_airtime + nru_airtime
    let sum_squared := wifi_airtime ^ 2 + nru_airtime ^ 2
    if sum_squared = 0 then 1
    else sum_airtime ^ 2 / (2 * sum_squared)

/-- `DynamicCWController._adjust_contention_windows` (lines 119-147),
omitting only the append to `adjustment_history`.  The float literal `1.1`
is modelled by the rational `11 / 10`. -/
def DynamicCWController.adjust_contention_windows (c : DynamicCWController)
    (wifi_airtime nru_airtime : ℚ) : DynamicCWController :=
  if wifi_airtime > nru_airtime * (11 / 10) then
    let c1 := c.increase_wifi_cw
    if c1.nru_config.cw_min > c1.min_cw then c1.decrease_nru_cw else c1
  else if nru_airtime > wifi_airtime * (11 / 10) then
    let c1 :=
      if c.wifi_config.cw_min > c.min_cw then c.decrease_wifi_cw else c
    c1.increase_nru_cw
  else c

/-- One body of the `DynamicCWController._monitor_and_adjust` loop
(lines 80-104), restricted to the decision logic: adjust only when some
delta is positive and the measured fairness is below target. -/
def DynamicCWController.monitor_step (c : DynamicCWController)
    (wifi_delta nru_delta : ℚ) : DynamicCWController :=
  if wifi_delta > 0 ∨ nru_delta > 0 then
    if calculate_jains_fairness wifi_delta nru_delta < c.target_fairness then
      c.adjust_contention_windows wifi_delta nru_delta
    else c
  else c

/-- C4: when the measured fairness is below target and the Wi-Fi airtime
delta exceeds 1.1 times the NR-U delta, the monitor step sets the Wi-Fi
`cw_min` to `min (cw_min + adjustment_step) max_cw` — a strict increase
whenever `cw_min < max_cw` and the step is positive — and the Wi-Fi `cw_max`
to `min (4 * new cw_min) max_cw`; when `cw_min` already equals `max_cw` it
stays at `max_cw`. -/
theorem monitor_step_increases_wifi_cw (c : DynamicCWController)
    (wifi_delta nru_delta : ℚ)
    (hpos : 0 < wifi_delta ∨ 0 < nru_delta)
    (hfair : calculate_jains_fairness wifi_delta nru_delta <
      c.target_fairness)
    (hdom : wifi_delta > nru_delta * (11 / 10))
    (hstep : 0 < c.adjustment_step) :
    (c.monitor_step wifi_delta nru_delta).wifi_config.cw_min =
        min (c.wifi_config.cw_min + c.adjustment_step) c.max_cw ∧
    (c.monitor_step wifi_delta nru_delta).wifi_config.cw_max =
        min ((c.monitor_step wifi_delta nru_delta).wifi_config.cw_min * 4)
          c.max_cw ∧
    (c.wifi_config.cw_min < c.max_cw →
      c.wifi_config.cw_min <
        (c.monitor_step wifi_delta nru_delta).wifi_config.cw_min) ∧
    (c.wifi_config.cw_min = c.max_cw →
      (c.monitor_step wifi_delta nru_delta).wifi_config.cw_min = c.max_cw) := by
  have hstep1 : c.monitor_step wifi_delta nru_delta =
      c.adjust_contention_windows wifi_delta nru_delta := by
    rw [DynamicCWController.monitor_step, if_pos hpos, if_pos hfair]
  have hstep2 : (c.adjust_contention_windows wifi_delta nru_delta).wifi_config
      = c.increase_wifi_cw.wifi_config := by
    rw [DynamicCWController.adjust_contention_windows, if_pos hdom]
    by_cases hd : c.increase_wifi_cw.nru_config.cw_min >
        c.increase_wifi_cw.min_cw
    · rw [if_pos hd]
      rfl
    · rw [if_neg hd]
  rw [hstep1, hstep2]
  refine ⟨rfl, rfl, fun hlt => ?_, fun heq => ?_⟩
  · show c.wifi_config.cw_min <
      min (c.wifi_config.cw_min + c.adjustment_step) c.max_cw
    omega
  · show min (c.wifi_config.cw_min + c.adjustment_step) c.max_cw = c.max_cw
    omega

/-- Witness for C4: default configs (`cw_min = 15`, `max_cw = 511`,
`step = 5`, target 0.95) with a measurement interval in which only Wi-Fi
transmitted (delta 100 vs 0, fairness 1/2). -/
theorem monitor_step_increases_wifi_cw_witness :
    (DynamicCWController.monitor_step
        ⟨⟨15, 63⟩, ⟨15, 63⟩, 5, 19 / 20, 7, 511, [⟨15, 63⟩], [⟨15, 63⟩]⟩
        100 0).wifi_config.cw_min = min (15 + 5) 511 ∧
    (DynamicCWController.monitor_step
        ⟨⟨15, 63⟩, ⟨15, 63⟩, 5, 19 / 20, 7, 511, [⟨15, 63⟩], [⟨15, 63⟩]⟩
        100 0).wifi_config.cw_max =
      min ((DynamicCWController.monitor_step
        ⟨⟨15, 63⟩, ⟨15, 63⟩, 5, 19 / 20, 7, 511, [⟨15, 63⟩], [⟨15, 63⟩]⟩
        100 0).wifi_config.cw_min * 4) 511 ∧
    (15 < 511 →
      15 < (DynamicCWController.monitor_step
        ⟨⟨15, 63⟩, ⟨15, 63⟩, 5, 19 / 20, 7, 511, [⟨15, 63⟩], [⟨15, 63⟩]⟩
        100 0).wifi_config.cw_min) ∧
    (15 = 511 →
      (DynamicCWController.monitor_step
        ⟨⟨15, 63⟩, ⟨15, 63⟩, 5, 19 / 20, 7, 511, [⟨15, 63⟩], [⟨15, 63⟩]⟩
        100 0).wifi_config.cw_min = 511) :=
  monitor_step_increases_wifi_cw
    ⟨⟨15, 63⟩, ⟨15, 63⟩, 5, 19 / 20, 7, 511, [⟨15, 63⟩], [⟨15, 63⟩]⟩
    100 0 (Or.inl (by norm_num))
    (by norm_num [calculate_jains_fairness]) (by norm_num) (by norm_num)

/-- C10: each of the four adjustment operations keeps the adjusted config's
`cw_min` inside `[min_cw, max_cw]` (given it started there), sets that
config's `cw_max` to `min (4 * cw_min) max_cw`, and broadcasts exactly the
new config pair to every registered station (for the Wi-Fi operations)
resp. gNB (for the NR-U operations). -/
theorem controller_adjustment_invariant (c : DynamicCWController)
    (hw1 : c.min_cw ≤ c.wifi_config.cw_min)
    (hw2 : c.wifi_config.cw_min ≤ c.max_cw)
    (hn1 : c.min_cw ≤ c.nru_config.cw_min)
    (hn2 : c.nru_config.cw_min ≤ c.max_cw) :
    (c.min_cw ≤ c.increase_wifi_cw.wifi_config.cw_min ∧
      c.increase_wifi_cw.wifi_config.cw_min ≤ c.max_cw ∧
      c.increase_wifi_cw.wifi_config.cw_max =
        min (4 * c.increase_wifi_cw.wifi_config.cw_min) c.max_cw ∧
      ∀ p ∈ c.increase_wifi_cw.stations,
        p = c.increase_wifi_cw.wifi_config) ∧
    (c.min_cw ≤ c.decrease_wifi_cw.wifi_config.cw_min ∧
      c.decrease_wifi_cw.wifi_config.cw_min ≤ c.max_cw ∧
      c.decrease_wifi_cw.wifi_config.cw_max =
        min (4 * c.decrease_wifi_cw.wifi_config.cw_min) c.max_cw ∧
      ∀ p ∈ c.decrease_wifi_cw.stations,
        p = c.decrease_wifi_cw.wifi_config) ∧
    (c.min_cw ≤ c.increase_nru_cw.nru_config.cw_min ∧
      c.increase_nru_cw.nru_config.cw_min ≤ c.max_cw ∧
      c.increase_nru_cw.nru_config.cw_max =
        min (4 * c.increase_nru_cw.nru_config.cw_min) c.max_cw ∧
      ∀ p ∈ c.increase_nru_cw.gnbs, p = c.increase_nru_cw.nru_config) ∧
    (c.min_cw ≤ c.decrease_nru_cw.nru_config.cw_min ∧
      c.decrease_nru_cw.nru_config.cw_min ≤ c.max_cw ∧
      c.decrease_nru_cw.nru_config.cw_max =
        min (4 * c.decrease_nru_cw.nru_config.cw_min) c.max_cw ∧
      ∀ p ∈ c.decrease_nru_cw.gnbs, p = c.decrease_nru_cw.nru_config) := by
  simp only [DynamicCWController.increase_wifi_cw,
    DynamicCWController.decrease_wifi_cw,
    DynamicCWController.increase_nru_cw,
    DynamicCWController.decrease_nru_cw, List.mem_map]
  refine ⟨⟨by omega, by omega, by omega, ?_⟩,
    ⟨by omega, by omega, by omega, ?_⟩,
    ⟨by omega, by omega, by omega, ?_⟩,
    ⟨by omega, by omega, by omega, ?_⟩⟩ <;>
    · intro p hp
      obtain ⟨q, hq, rfl⟩ := hp
      rfl

/-- Witness for C10: the default configuration (`min_cw = 7`,
`max_cw = 511`, both configs at `(15, 63)`) with one station and one gNB. -/
theorem controller_adjustment_invariant_witness :
    let c : DynamicCWController :=
      ⟨⟨15, 63⟩, ⟨15, 63⟩, 5, 19 / 20, 7, 511, [⟨15, 63⟩], [⟨15, 63⟩]⟩
    (c.min_cw ≤ c.increase_wifi_cw.wifi_config.cw_min ∧
      c.increase_wifi_cw.wifi_config.cw_min ≤ c.max_cw ∧
      c.increase_wifi_cw.wifi_config.cw_max =
        min (4 * c.increase_wifi_cw.wifi_config.cw_min) c.max_cw ∧
      ∀ p ∈ c.increase_wifi_cw.stations,
        p = c.increase_wifi_cw.wifi_config) ∧
    (c.min_cw ≤ c.decrease_wifi_cw.wifi_config.cw_min ∧
      c.decrease_wifi_cw.wifi_config.cw_min ≤ c.max_cw ∧
      c.decrease_wifi_cw.wifi_config.cw_max =
        min (4 * c.decrease_wifi_cw.wifi_config.cw_min) c.max_cw ∧
      ∀ p ∈ c.decrease_wifi_cw.stations,
        p = c.decrease_wifi_cw.wifi_config) ∧
    (c.min_cw ≤ c.increase_nru_cw.nru_config.cw_min ∧
      c.increase_nru_cw.nru_config.cw_min ≤ c.max_cw ∧
      c.increase_nru_cw.nru_config.cw_max =
        min (4 * c.increase_nru_cw.nru_config.cw_min) c.max_cw ∧
      ∀ p ∈ c.increase_nru_cw.gnbs, p = c.increase_nru_cw.nru_config) ∧
    (c.min_cw ≤ c.decrease_nru_cw.nru_config.cw_min ∧
      c.decrease_nru_cw.nru_config.cw_min ≤ c.max_cw ∧
      c.decrease_nru_cw.nru_config.cw_max =
        min (4 * c.decrease_nru_cw.nru_config.cw_min) c.max_cw ∧
      ∀ p ∈ c.decrease_nru_cw.gnbs, p = c.decrease_nru_cw.nru_config) :=
  controller_adjustment_invariant
    ⟨⟨15, 63⟩, ⟨15, 63⟩, 5, 19 / 20, 7, 511, [⟨15, 63⟩], [⟨15, 63⟩]⟩
    (by norm_num) (by norm_num) (by norm_num) (by norm_num)

/-- `wifi_data_rate = 866.7` (line 944), exactly as a rational. -/
def wifi_data_rate : ℚ := 8667 / 10

/-- `nru_data_rate = 1200.0` (line 945). -/
def nru_data_rate : ℚ := 1200

/-- The `all_throughputs` list built in `run_simulation` (lines 1004-1020):
per-station throughput `airtime_data[name] / time * wifi_data_rate` followed
by per-gNB throughput `airtime_data_NR[name] / time * nru_data_rate`.  Every
created node registers its name in the airtime dict
(`self.channel.airtime_data.update({name: 0})`), so the membership test in
the source always succeeds and the list has one entry per node. -/
def all_throughputs (wifi_airtimes nru_airtimes : List ℚ) (time : ℚ) :
    List ℚ :=
  wifi_airtimes.map (fun airtime => airtime / time * wifi_data_rate) ++
    nru_airtimes.map (fun airtime => airtime / time * nru_data_rate)

/-- The Jain's fairness computation of `run_simulation` (lines 1002, 1023-
1027): `jains_fairness` is initialised to 0 and set to
`sum ^ 2 / (len * sum_squared)` only when the list is non-empty and the sum
of squares is positive. -/
def jains_fairness_index (ts : List ℚ) : ℚ :=
  if 0 < ts.length then
    let sum_throughput := ts.sum
    let sum_squared_throughput := (ts.map (fun t => t * t)).sum
    if 0 < sum_squared_throughput then
      sum_throughput ^ 2 / (ts.length * sum_squared_throughput)
    else 0
  else 0

/-- A sum of squares is non-negative. -/
theorem list_sum_sq_nonneg (L : List ℚ) :
    0 ≤ (L.map (fun t => t * t)).sum := by
  refine List.sum_nonneg ?_
  intro x hx
  obtain ⟨y, _, rfl⟩ := List.mem_map.1 hx
  exact mul_self_nonneg y

/-- Cauchy-Schwarz for list sums: `(Σ t)² ≤ n · Σ t²`. -/
theorem list_sq_sum_le_length_mul_sum_sq (L : List ℚ) :
    L.sum ^ 2 ≤ (L.length : ℚ) * (L.map (fun t => t * t)).sum := by
  induction L with
  | nil => simp
  | cons a t ih =>
    rcases eq_or_ne t [] with rfl | ht
    · simp
      nlinarith [sq_nonneg a]
    · have hn : 0 < t.length := List.length_pos.2 ht
      have hn1 : (1 : ℚ) ≤ (t.length : ℚ) := by exact_mod_cast hn
      have hn0 : (0 : ℚ) ≤ (t.length : ℚ) := by positivity
      have hq : 0 ≤ (t.map (fun t => t * t)).sum := list_sum_sq_nonneg t
      simp only [List.sum_cons, List.map_cons, List.length_cons]
      push_cast
      nlinarith [ih, hq, sq_nonneg ((t.length : ℚ) * a - t.sum),
        mul_nonneg hn0 (sub_nonneg.2 ih), hn1]

/-- For non-negative entries, `Σ t² ≤ (Σ t)²`. -/
theorem list_sum_sq_le_sq_sum (L : List ℚ) (h : ∀ x ∈ L, 0 ≤ x) :
    (L.map (fun t => t * t)).sum ≤ L.sum ^ 2 := by
  induction L with
  | nil => simp
  | cons a t ih =>
    have ha : 0 ≤ a := h a (List.mem_cons_self a t)
    have ht : ∀ x ∈ t, 0 ≤ x := fun x hx => h x (List.mem_cons_of_mem a hx)
    have hs : 0 ≤ t.sum := List.sum_nonneg ht
    simp only [List.map_cons, List.sum_cons]
    nlinarith [ih ht, mul_nonneg ha hs]

/-- Every entry of `all_throughputs` is non-negative when airtimes are
non-negative and the simulated duration is positive. -/
theorem all_throughputs_nonneg (wifi_airtimes nru_airtimes : List ℚ)
    (time : ℚ) (htime : 0 < time) (hw : ∀ a ∈ wifi_airtimes, 0 ≤ a)
    (hn : ∀ a ∈ nru_airtimes, 0 ≤ a) :
    ∀ x ∈ all_throughputs wifi_airtimes nru_airtimes time, 0 ≤ x := by
  intro x hx
  rcases List.mem_append.1 hx with hx | hx
  · obtain ⟨a, ha, rfl⟩ := List.mem_map.1 hx
    have : (0 : ℚ) ≤ wifi_data_rate := by norm_num [wifi_data_rate]
    exact mul_nonneg (div_nonneg (hw a ha) htime.le) this
  · obtain ⟨a, ha, rfl⟩ := List.mem_map.1 hx
    have : (0 : ℚ) ≤ nru_data_rate := by norm_num [nru_data_rate]
    exact mul_nonneg (div_nonneg (hn a ha) htime.le) this

/-- C7 (amended): for a run with `n = number_of_stations + number_of_gnb`
nodes, a positive simulated duration and non-negative per-node airtimes, the
Jain's index emitted by `run_simulation` lies in `[1/n, 1]` whenever some
node has a non-zero throughput (positive sum of squares); when every
throughput is zero the source skips the formula and emits the initial value
0 instead. -/
theorem run_simulation_jains_fairness_bounds
    (wifi_airtimes nru_airtimes : List ℚ) (time : ℚ) (htime : 0 < time)
    (hw : ∀ a ∈ wifi_airtimes, 0 ≤ a) (hn : ∀ a ∈ nru_airtimes, 0 ≤ a) :
    (0 < ((all_throughputs wifi_airtimes nru_airtimes time).map
        (fun t => t * t)).sum →
      1 / ((wifi_airtimes.length : ℚ) + (nru_airtimes.length : ℚ)) ≤
          jains_fairness_index
            (all_throughputs wifi_airtimes nru_airtimes time) ∧
        jains_fairness_index
          (all_throughputs wifi_airtimes nru_airtimes time) ≤ 1) ∧
    (((all_throughputs wifi_airtimes nru_airtimes time).map
        (fun t => t * t)).sum = 0 →
      jains_fairness_index (all_throughputs wifi_airtimes nru_airtimes time)
        = 0) := by
  set L := all_throughputs wifi_airtimes nru_airtimes time with hL
  have hlen : (L.length : ℚ) =
      (wifi_airtimes.length : ℚ) + (nru_airtimes.length : ℚ) := by
    rw [hL]
    simp [all_throughputs]
  constructor
  · intro hsq
    have hxs : ∀ x ∈ L, 0 ≤ x :=
      all_throughputs_nonneg wifi_airtimes nru_airtimes time htime hw hn
    have hne : L ≠ [] := by
      intro h0
      rw [h0] at hsq
      simp at hsq
    have hlpos : 0 < L.length := List.length_pos.2 hne
    have hlq : (0 : ℚ) < (L.length : ℚ) := by exact_mod_cast hlpos
    have hval : jains_fairness_index L =
        L.sum ^ 2 / ((L.length : ℚ) * (L.map (fun t => t * t)).sum) := by
      rw [jains_fairness_index, if_pos hlpos, if_pos hsq]
    have hden : (0 : ℚ) < (L.length : ℚ) * (L.map (fun t => t * t)).sum :=
      mul_pos hlq hsq
    rw [← hlen, hval]
    constructor
    · rw [div_le_div_iff hlq hden]
      have hlow : (L.map (fun t => t * t)).sum ≤ L.sum ^ 2 :=
        list_sum_sq_le_sq_sum L hxs
      nlinarith [hlow, hlq.le, hsq.le]
    · rw [div_le_one hden]
      exact list_sq_sum_le_length_mul_sum_sq L
  · intro hsq
    rw [jains_fairness_index]
    by_cases hlpos : 0 < L.length
    · rw [if_pos hlpos, if_neg (by rw [hsq]; exact lt_irrefl 0)]
    · rw [if_neg hlpos]

/-- Witness for C7: one station and one gNB with airtimes 1 and 2 over a
unit duration. -/
theorem run_simulation_jains_fairness_bounds_witness :
    (0 < ((all_throughputs [1] [2] 1).map (fun t => t * t)).sum →
      1 / ((([1] : List ℚ).length : ℚ) + (([2] : List ℚ).length : ℚ)) ≤
          jains_fairness_index (all_throughputs [1] [2] 1) ∧
        jains_fairness_index (all_throughputs [1] [2] 1) ≤ 1) ∧
    (((all_throughputs [1] [2] 1).map (fun t => t * t)).sum = 0 →
      jains_fairness_index (all_throughputs [1] [2] 1) = 0) :=
  run_simulation_jains_fairness_bounds [1] [2] 1 (by norm_num)
    (by intro a ha; simp at ha; simp [ha]) (by intro a ha; simp at ha; simp [ha])

/-- Counterexample for C7 as stated: a run with `n = 1` station whose
airtime is 0 (non-negative) emits the initial 0 for the Jain's index, and
`1/n = 1` is not at most 0, so the emitted index lies outside `[1/n, 1]`. -/
theorem run_simulation_jains_fairness_claim_counterexample :
    jains_fairness_index (all_throughputs [0] [] 1) = 0 ∧
    ¬ (1 / ((1 : ℚ)) ≤ jains_fairness_index (all_throughputs [0] [] 1)) := by
  have h : jains_fairness_index (all_throughputs [0] [] 1) = 0 := by
    norm_num [jains_fairness_index, all_throughputs, wifi_data_rate]
  refine ⟨h, ?_⟩
  rw [h]
  norm_num
